import Mathlib

/-!
Verification development for a minimal tokio TCP broadcast chat server
(`src/main.rs`).  The program binds a `TcpListener`, creates one
`tokio::sync::broadcast` channel of capacity 10 carrying
`(String, SocketAddr)` pairs, and in an unbounded accept loop spawns one
task per connection.  Each task runs a `tokio::select!` loop racing
`BufReader::read_line` against `broadcast::Receiver::recv`; read lines are
published (with the sender's address) to the channel, received messages
from other origins are written back to the socket.

The embedding below models:
* the body of one `select!` iteration of a connection task (`sessionStep`),
  with the two `unwrap` panic points (`send(...).unwrap()` and
  `recv_msg.unwrap()`, `write_all(...).unwrap()`) made explicit;
* the tokio broadcast channel: an append-only log of published messages,
  a per-receiver cursor, capacity-bounded retention with the documented
  Lagged semantics (a receiver more than `cap` behind skips to the oldest
  retained message), and `send` failing exactly when no receiver exists;
* the accept loop of `main` (`listenerStep`), whose `accept().await.unwrap()`
  panics the whole process on an accept error;
* a whole-system small-step model (`System.readStep`, `System.deliverStep`)
  in which each live session task owns one broadcast receiver, so the
  channel's receiver count is the number of live sessions.
-/

namespace TcpChat

/-- Connection identity: the remote `SocketAddr`, abstracted to a
comparable value. -/
abbrev Addr := Nat

/-- A broadcast message: `(text, origin)` as in
`broadcast::channel::<(String, SocketAddr)>`. -/
abbrev Msg := String × Addr

/-- Result of `br.read_line(&mut message)` as observed by the session:
on `ok`, `data` is what `read_line` appended to the buffer (a complete
line including its terminator, or the partial final line at EOF; empty at
EOF with nothing buffered, i.e. `Ok(0)`); `err` is a read error. -/
inductive ReadRes where
  | ok (data : String)
  | err
  deriving DecidableEq, Repr

/-- Result of `channel_read.recv()` as observed by the session. -/
inductive RecvRes where
  | msg (text : String) (origin : Addr)
  | lagged (missed : Nat)
  | closed
  deriving DecidableEq, Repr

/-- The event that wins one `tokio::select!` race. -/
inductive SEvent where
  | read (r : ReadRes)
  | recv (r : RecvRes)
  deriving DecidableEq, Repr

/-- Externally visible effects of one loop iteration. -/
inductive Effect where
  | publish (text : String) (origin : Addr)
  | sockWrite (text : String)
  deriving DecidableEq, Repr

/-- Outcome of one loop iteration: either the loop continues with the new
line-buffer contents, or the task dies (an `unwrap` panicked). -/
inductive SOut where
  | next (message : String) (effs : List Effect)
  | fatal (effs : List Effect)
  deriving DecidableEq, Repr

/-- Whether the iteration killed the task. -/
def SOut.isFatal : SOut → Bool
  | .next _ _ => false
  | .fatal _ => true

/-- The effects of an iteration outcome. -/
def SOut.effects : SOut → List Effect
  | .next _ effs => effs
  | .fatal effs => effs

/-- One iteration of the session loop in `main.rs` (lines 23–35), for the
session with identity `addr`, current line buffer `message`, reacting to
the event `e` that won the `select!` race.

`hasReceivers` records whether the broadcast channel has at least one
receiver at the moment of `channel_send.send(...)`: tokio's `send` returns
`Err` exactly when there are no receivers, and the code calls `.unwrap()`
on it.  `writeOk` records whether `socket_writer.write_all(...)` succeeds;
the code calls `.unwrap()` on it as well.

Note the faithful quirks of the source:
* the binding `num_of_bytes = br.read_line(&mut message)` is never
  inspected — the read arm publishes `message.clone()` and clears the
  buffer whether `read_line` returned `Ok(n)`, `Ok(0)` (EOF) or `Err`;
* `recv_msg.unwrap()` panics on both `Lagged` and `Closed`;
* the write happens only under `if addr != o_addr`. -/
def sessionStep (addr : Addr) (hasReceivers : Bool) (writeOk : Bool)
    (message : String) (e : SEvent) : SOut :=
  match e with
  | .read r =>
    let buf := match r with
      | .ok data => message ++ data
      | .err => message
    if hasReceivers then .next "" [.publish buf addr]
    else .fatal []
  | .recv r =>
    match r with
    | .msg text o =>
      if addr ≠ o then
        if writeOk then .next message [.sockWrite text]
        else .fatal []
      else .next message []
    | .lagged _ => .fatal []
    | .closed => .fatal []

/-- The tokio broadcast channel, modelled as the append-only log of every
message ever sent plus the fixed capacity (10 in `main.rs`).  Only the
last `cap` entries of the log are retained for delivery. -/
structure BChan where
  cap : Nat
  log : List Msg
  deriving DecidableEq, Repr

/-- Index of the oldest retained message (0 while fewer than `cap`
messages have been sent). -/
def BChan.oldestRetained (ch : BChan) : Nat := ch.log.length - ch.cap

/-- `send` with at least one receiver: append the message to the log. -/
def BChan.send (ch : BChan) (m : Msg) : BChan :=
  { ch with log := ch.log ++ [m] }

/-- tokio's `broadcast::Sender::send`: returns `Err` (the `SendError`
carrying the message back) exactly when the channel currently has zero
receivers, `Ok` otherwise.  It never blocks. -/
def BChan.sendRes (ch : BChan) (receivers : Nat) (m : Msg) :
    Except Msg BChan :=
  if receivers = 0 then .error m else .ok (ch.send m)

/-- A subscription handle (`broadcast::Receiver`): its cursor is the index
into the log of the next message it will receive.  `subscribe()` creates
one with `next` equal to the current log length (no history). -/
structure Receiver where
  next : Nat
  deriving DecidableEq, Repr

/-- What a ready `recv()` returns: the message at log index `idx`, or a
`Lagged` report. -/
inductive RecvOut where
  | msg (m : Msg) (idx : Nat)
  | lagged (missed : Nat)
  deriving DecidableEq, Repr

/-- One `recv()` on the channel: `none` when the receiver is caught up
(the call would suspend); `Lagged` when the cursor has fallen behind the
retention window, in which case the cursor skips to the oldest retained
message and the number of skipped messages is reported; otherwise the
message at the cursor, and the cursor advances by one. -/
def BChan.recvStep (ch : BChan) (r : Receiver) :
    Option (RecvOut × Receiver) :=
  if ch.log.length ≤ r.next then none
  else if r.next < ch.oldestRetained then
    some (.lagged (ch.oldestRetained - r.next), ⟨ch.oldestRetained⟩)
  else
    some (.msg (ch.log.getD r.next ("", 0)) r.next, ⟨r.next + 1⟩)

/-- Drain a receiver: repeatedly `recv` until the receiver is caught up,
collecting the delivered messages in order (fuel-indexed recursion). -/
def drainAux : Nat → BChan → Receiver → List Msg
  | 0, _, _ => []
  | fuel + 1, ch, r =>
    match ch.recvStep r with
    | none => []
    | some (.msg m _, r') => m :: drainAux fuel ch r'
    | some (.lagged _, r') => drainAux fuel ch r'

/-- All messages a receiver obtains if it keeps calling `recv` until it is
caught up, in delivery order. -/
def BChan.drain (ch : BChan) (r : Receiver) : List Msg :=
  drainAux (ch.log.length + 1) ch r

/-- Result of one `tcp_listener.accept().await` call. -/
inductive AcceptRes where
  | conn (addr : Addr)
  | err
  deriving DecidableEq, Repr

/-- Outcome of one iteration of the accept loop in `main` (lines 13–16):
a new session task is spawned, or the whole process dies. -/
inductive LOut where
  | spawned (addr : Addr)
  | fatal
  deriving DecidableEq, Repr

/-- One iteration of the accept loop: `main.rs` line 14 is
`let (mut socket, addr) = tcp_listener.accept().await.unwrap();`, so an
accept error panics `main`, killing the listener and the whole process;
on success a session for the new connection is spawned. -/
def listenerStep : AcceptRes → LOut
  | .conn a => .spawned a
  | .err => .fatal

/-- The state of one spawned connection task: its identity, the cursor of
the broadcast receiver it owns, its line buffer, and whether the task is
still running (`alive = false` once an `unwrap` panicked). -/
structure Session where
  addr : Addr
  rnext : Nat
  message : String
  alive : Bool
  deriving DecidableEq, Repr

/-- Whole-system state: the shared broadcast channel and the spawned
sessions. -/
structure System where
  chan : BChan
  sessions : List Session
  deriving DecidableEq, Repr

/-- The channel's receiver count.  `main` drops the receiver returned by
`broadcast::channel` immediately (it is bound to `_`); each spawned task
owns exactly one receiver (`channel_read`) from before it starts until it
exits, so the receiver count is the number of live session tasks. -/
def receiverCount (sys : System) : Nat :=
  (sys.sessions.filter (fun s => s.alive)).length

/-- Interpret a session's effects against the channel: publishes append to
the log, socket writes do not touch the channel. -/
def applyEffects (ch : BChan) : List Effect → BChan
  | [] => ch
  | .publish t o :: rest => applyEffects (ch.send (t, o)) rest
  | .sockWrite _ :: rest => applyEffects ch rest

/-- System step: session `i`'s `read_line` completes with appended data
`data` (the read arm of the `select!` wins).  `none` when the event is
impossible (no such live session). -/
def System.readStep (sys : System) (i : Nat) (data : String) :
    Option System :=
  match sys.sessions[i]? with
  | none => none
  | some s =>
    if s.alive = false then none
    else
      match sessionStep s.addr (decide (0 < receiverCount sys)) true
          s.message (.read (.ok data)) with
      | .next buf effs =>
        some { chan := applyEffects sys.chan effs,
               sessions := sys.sessions.set i { s with message := buf } }
      | .fatal effs =>
        some { chan := applyEffects sys.chan effs,
               sessions := sys.sessions.set i { s with alive := false } }

/-- What the session's `recv_msg` looks like for a ready `recv()`. -/
def recvResOf : RecvOut → RecvRes
  | .msg (t, o) _ => .msg t o
  | .lagged n => .lagged n

/-- System step: session `i`'s `channel_read.recv()` completes (the recv
arm of the `select!` wins).  `none` when the event is impossible (no such
live session, or the receiver is caught up so `recv` would suspend).
`writeOk` tells whether the `write_all`, if reached, succeeds. -/
def System.deliverStep (sys : System) (i : Nat) (writeOk : Bool) :
    Option System :=
  match sys.sessions[i]? with
  | none => none
  | some s =>
    if s.alive = false then none
    else
      match sys.chan.recvStep ⟨s.rnext⟩ with
      | none => none
      | some (out, r') =>
        match sessionStep s.addr true writeOk s.message
            (.recv (recvResOf out)) with
        | .next buf effs =>
          some { chan := applyEffects sys.chan effs,
                 sessions := sys.sessions.set i
                   { s with message := buf, rnext := r'.next } }
        | .fatal effs =>
          some { chan := applyEffects sys.chan effs,
                 sessions := sys.sessions.set i
                   { s with alive := false, rnext := r'.next } }

/-- Iterate `readStep` for session 0 with empty appended data `n` times:
this is exactly what the task of a disconnected client does, since at EOF
`read_line` returns `Ok(0)` appending nothing and the code never checks
the byte count. -/
def eofFlood (sys : System) : Nat → Option System
  | 0 => some sys
  | n + 1 => (eofFlood sys n).bind (fun s => s.readStep 0 "")

/-- Two-session system used for concrete scenarios: session 0 at address
1 and session 1 at address 2, both freshly subscribed to an empty
capacity-10 channel (the configuration after two accepts with no traffic
yet). -/
def twoSessions : System :=
  { chan := { cap := 10, log := [] },
    sessions := [ { addr := 1, rnext := 0, message := "", alive := true },
                  { addr := 2, rnext := 0, message := "", alive := true } ] }

/-- Placeholder session for `List.getD` lookups in concrete scenarios. -/
def noSession : Session :=
  { addr := 0, rnext := 0, message := "", alive := false }

/-- `twoSessions` after session 0 reads the line `"hello\n"`: the line is
published and session 0's buffer is cleared. -/
def afterHello : System :=
  { chan := { cap := 10, log := [("hello\n", 1)] },
    sessions := [ { addr := 1, rnext := 0, message := "", alive := true },
                  { addr := 2, rnext := 0, message := "", alive := true } ] }

/-- `afterHello` after session 1 receives the broadcast: the channel is
untouched (the write is a socket effect only) and session 1's cursor
advances. -/
def afterDeliverB : System :=
  { chan := { cap := 10, log := [("hello\n", 1)] },
    sessions := [ { addr := 1, rnext := 0, message := "", alive := true },
                  { addr := 2, rnext := 1, message := "", alive := true } ] }

/-- A channel holding two messages published by origin 1, in order. -/
def fifoChan : BChan :=
  { cap := 10, log := [("a\n", 1), ("b\n", 1)] }

/-- A ready `recv()` strictly advances the receiver's cursor, whether it
delivers a message or reports lag. -/
theorem recvStep_advances (ch : BChan) (r : Receiver) (out : RecvOut)
    (r' : Receiver) (h : ch.recvStep r = some (out, r')) :
    r.next < r'.next := by
  unfold BChan.recvStep at h
  split at h
  · simp at h
  · split at h
    · simp only [Option.some.injEq, Prod.mk.injEq] at h
      obtain ⟨-, h2⟩ := h
      subst h2
      show r.next < ch.oldestRetained
      omega
    · simp only [Option.some.injEq, Prod.mk.injEq] at h
      obtain ⟨-, h2⟩ := h
      subst h2
      show r.next < r.next + 1
      omega

/-- A delivered message is always the one at the receiver's cursor, and
the cursor moves one past it: a handle can obtain the message at a given
log position at most once. -/
theorem recvStep_msg_at_cursor (ch : BChan) (r : Receiver) (m : Msg)
    (i : Nat) (r' : Receiver) (h : ch.recvStep r = some (.msg m i, r')) :
    i = r.next ∧ r'.next = r.next + 1 := by
  unfold BChan.recvStep at h
  split at h
  · simp at h
  · split at h
    · simp at h
    · simp only [Option.some.injEq, Prod.mk.injEq, RecvOut.msg.injEq] at h
      obtain ⟨⟨-, h1⟩, h2⟩ := h
      subst h1; subst h2
      exact ⟨rfl, rfl⟩

/-- Fuel-indexed version of `drain_eq_drop`. -/
theorem drainAux_eq_drop (fuel : Nat) :
    ∀ (ch : BChan) (r : Receiver), ch.log.length - r.next < fuel →
      drainAux fuel ch r = ch.log.drop (max r.next ch.oldestRetained) := by
  induction fuel with
  | zero => intro ch r h; omega
  | succ fuel ih =>
    intro ch r h
    by_cases h1 : ch.log.length ≤ r.next
    · have hs : ch.recvStep r = none := by simp [BChan.recvStep, h1]
      simp only [drainAux, hs]
      have hm := le_max_left r.next ch.oldestRetained
      rw [List.drop_eq_nil_of_le (by omega)]
    · by_cases h2 : r.next < ch.oldestRetained
      · have hs : ch.recvStep r =
            some (.lagged (ch.oldestRetained - r.next),
                  ⟨ch.oldestRetained⟩) := by
          simp [BChan.recvStep, h1, h2]
        have ho : ch.oldestRetained = ch.log.length - ch.cap := rfl
        simp only [drainAux, hs]
        rw [ih ch ⟨ch.oldestRetained⟩
          (by show ch.log.length - ch.oldestRetained < fuel; omega)]
        congr 1
        simp only [Nat.max_self]
        exact (Nat.max_eq_right (le_of_lt h2)).symm
      · have hnext : r.next < ch.log.length := by omega
        have hs : ch.recvStep r =
            some (.msg (ch.log.getD r.next ("", 0)) r.next,
                  ⟨r.next + 1⟩) := by
          simp [BChan.recvStep, h1, h2]
        simp only [drainAux, hs]
        rw [ih ch ⟨r.next + 1⟩
          (by show ch.log.length - (r.next + 1) < fuel; omega)]
        rw [Nat.max_eq_left (by omega : ch.oldestRetained ≤ r.next + 1),
            Nat.max_eq_left (by omega : ch.oldestRetained ≤ r.next),
            List.drop_eq_getElem_cons hnext]
        congr 1
        simp [List.getD_eq_getElem?_getD, List.getElem?_eq_getElem hnext]

/-- Draining a receiver yields exactly the contiguous suffix of the
publish log starting at its cursor (or at the oldest retained message if
it has lagged): deliveries follow the channel's publish order. -/
theorem drain_eq_drop (ch : BChan) (r : Receiver) :
    ch.drain r = ch.log.drop (max r.next ch.oldestRetained) :=
  drainAux_eq_drop (ch.log.length + 1) ch r (by omega)

/-- The recv arm never publishes: interpreting its effects leaves the
channel unchanged (its only effect is a socket write). -/
theorem applyEffects_recv (addr : Addr) (hasR wOk : Bool) (buf : String)
    (rr : RecvRes) (ch : BChan) :
    applyEffects ch (sessionStep addr hasR wOk buf (.recv rr)).effects
      = ch := by
  cases rr with
  | msg t o =>
    simp only [sessionStep]
    split_ifs <;> simp [SOut.effects, applyEffects]
  | lagged n => rfl
  | closed => rfl

/-- C1: a session never writes a message whose origin is its own
connection identity to its socket — the `if addr != o_addr` guard
discards it with no effect at all; and the channel delivers each message
to a handle at most once: a ready `recv` strictly advances the cursor,
and the message delivered is always exactly the one at the cursor, which
moves one past it. -/
theorem no_self_echo_at_most_once :
    (∀ (addr : Addr) (hasR wOk : Bool) (buf text : String),
      sessionStep addr hasR wOk buf (.recv (.msg text addr)) =
        .next buf []) ∧
    (∀ (ch : BChan) (r : Receiver) (out : RecvOut) (r' : Receiver),
      ch.recvStep r = some (out, r') → r.next < r'.next) ∧
    (∀ (ch : BChan) (r : Receiver) (m : Msg) (i : Nat) (r' : Receiver),
      ch.recvStep r = some (.msg m i, r') →
        i = r.next ∧ r'.next = r.next + 1) := by
  refine ⟨?_, recvStep_advances, recvStep_msg_at_cursor⟩
  intro addr hasR wOk buf text
  simp [sessionStep]

/-- Witness for C1 at concrete inputs: session 1 receiving its own
message `"hi\n"` produces no write, and a concrete `recv` advances the
cursor from 0 to 1 delivering the message at position 0. -/
theorem no_self_echo_at_most_once_witness :
    sessionStep 1 true true "" (.recv (.msg "hi\n" 1)) = .next "" [] ∧
    (0 : Nat) < 1 ∧ ((0 : Nat) = 0 ∧ (1 : Nat) = 0 + 1) :=
  ⟨no_self_echo_at_most_once.1 1 true true "" "hi\n",
   no_self_echo_at_most_once.2.1 { cap := 10, log := [("a\n", 2)] } ⟨0⟩
     (.msg ("a\n", 2) 0) ⟨1⟩ (by decide),
   no_self_echo_at_most_once.2.2 { cap := 10, log := [("a\n", 2)] } ⟨0⟩
     ("a\n", 2) 0 ⟨1⟩ (by decide)⟩

/-- C2: evaluating the read arm at the failing input — `read_line`
returning `Ok(0)` at end-of-stream (and likewise a read `Err`) — the
session does NOT terminate: because the bound `num_of_bytes` is never
inspected, it publishes the (empty) buffer to the channel and continues
the loop.  The spec's required behavior (terminate the session) does not
hold of the code. -/
theorem eof_publishes_and_continues :
    sessionStep 7 true true "" (.read (.ok "")) =
      .next "" [.publish "" 7] ∧
    sessionStep 7 true true "" (.read .err) =
      .next "" [.publish "" 7] := by
  exact ⟨rfl, rfl⟩

/-- C3 counterexample: a session whose `recv` reports Lagged does not
continue its loop — `recv_msg.unwrap()` panics, killing the task. -/
theorem lagged_fatal_cex :
    (sessionStep 1 true true "" (.recv (.lagged 3))).isFatal = true := by
  decide

/-- C3 amended: on a Lagged receive the session terminates (the result of
`channel_read.recv()` is unwrapped, so `RecvError::Lagged` panics the
task); lag is fatal, not recovered. -/
theorem lagged_fatal (addr : Addr) (hasR wOk : Bool) (buf : String)
    (n : Nat) :
    sessionStep addr hasR wOk buf (.recv (.lagged n)) = .fatal [] := rfl

/-- C4 counterexample: an error from a single `accept` call does not
leave the listener accepting — `accept().await.unwrap()` panics `main`,
terminating the listener and the whole process. -/
theorem accept_error_fatal_cex : listenerStep .err = .fatal := rfl

/-- C4 amended: one failed accept terminates the listener (and the
process) via the unwrap panic; a successful accept spawns a session. -/
theorem accept_error_fatal :
    listenerStep .err = .fatal ∧
    ∀ a : Addr, listenerStep (.conn a) = .spawned a :=
  ⟨rfl, fun _ => rfl⟩

/-- C5 counterexample: at EOF mid-line (`read_line` returns the partial
final line `"abc"` with no terminator) the session does not treat the
connection as terminated — it publishes the partial line to the channel
and continues the loop. -/
theorem partial_line_published_cex :
    sessionStep 1 true true "" (.read (.ok "abc")) =
      .next "" [.publish "abc" 1] := by decide

/-- C5 amended: an incomplete final line at stream end (appended data not
ending in a newline) is published to the broadcast channel like any
complete line, and the session continues; nothing in the code
distinguishes it from a complete line. -/
theorem partial_line_published (addr : Addr) (wOk : Bool)
    (buf data : String) (_h : data.data.getLast? ≠ some '\n') :
    sessionStep addr true wOk buf (.read (.ok data)) =
      .next "" [.publish (buf ++ data) addr] := by
  simp [sessionStep]

/-- Witness for C5 at the concrete partial line `"abc"`. -/
theorem partial_line_published_witness :
    "abc".data.getLast? ≠ some '\n' ∧
    sessionStep 1 true true "" (.read (.ok "abc")) =
      .next "" [.publish ("" ++ "abc") 1] :=
  ⟨by decide, partial_line_published 1 true "" "abc" (by decide)⟩

/-- C6 counterexample: a malfunction confined to session 0 does
terminate another session.  Session 0's socket hits EOF, so its
(unchecked) `read_line` returns `Ok(0)` repeatedly and the task floods
the capacity-10 channel with 11 empty messages; session 1's next `recv`
then reports Lagged, and its `unwrap` panics: session 1 is no longer
alive, although every event involved only session 0's socket. -/
theorem flood_kills_other_session_cex :
    ((eofFlood twoSessions 11).bind (fun s => s.deliverStep 1 true)).map
      (fun s => (s.sessions.getD 1 noSession).alive) = some false := by
  decide

/-- C6 amended: a failure confined to one session has no direct effect on
any other session — a step of session `i` (read or deliver, including the
steps in which an `unwrap` panic kills session `i`) never changes the
state of any session `j ≠ i`, and a deliver step never changes the
channel (a write failure in particular leaves both untouched).  Failures
can, however, propagate indirectly through published messages: see the
counterexample, where flooding by one session lags and thereby kills
another. -/
theorem session_step_isolation :
    (∀ (sys : System) (i : Nat) (data : String) (sys' : System),
      sys.readStep i data = some sys' →
      ∀ j, j ≠ i → sys'.sessions[j]? = sys.sessions[j]?) ∧
    (∀ (sys : System) (i : Nat) (wOk : Bool) (sys' : System),
      sys.deliverStep i wOk = some sys' →
      sys'.chan = sys.chan ∧
      ∀ j, j ≠ i → sys'.sessions[j]? = sys.sessions[j]?) := by
  constructor
  · intro sys i data sys' h j hj
    unfold System.readStep at h
    split at h
    · simp at h
    · split at h
      · simp at h
      · split at h
        · injection h with h
          subst h
          exact List.getElem?_set_ne (Ne.symm hj)
        · injection h with h
          subst h
          exact List.getElem?_set_ne (Ne.symm hj)
  · intro sys i wOk sys' h
    unfold System.deliverStep at h
    split at h
    · simp at h
    · rename_i s hsi
      split at h
      · simp at h
      · split at h
        · simp at h
        · rename_i out r' hrs
          split at h
          · rename_i buf effs hss
            injection h with h
            subst h
            have he := applyEffects_recv s.addr true wOk s.message
              (recvResOf out) sys.chan
            rw [hss] at he
            simp only [SOut.effects] at he
            exact ⟨he, fun j hj => List.getElem?_set_ne (Ne.symm hj)⟩
          · rename_i effs hss
            injection h with h
            subst h
            have he := applyEffects_recv s.addr true wOk s.message
              (recvResOf out) sys.chan
            rw [hss] at he
            simp only [SOut.effects] at he
            exact ⟨he, fun j hj => List.getElem?_set_ne (Ne.symm hj)⟩

/-- Witness for C6 at a concrete two-session system: session 0 reading
`"hello\n"` leaves session 1's state unchanged, and session 1's delivery
step leaves the channel and session 0's state unchanged. -/
theorem session_step_isolation_witness :
    afterHello.sessions[1]? = twoSessions.sessions[1]? ∧
    afterDeliverB.chan = afterHello.chan ∧
    afterDeliverB.sessions[0]? = afterHello.sessions[0]? :=
  ⟨session_step_isolation.1 twoSessions 0 "hello\n" afterHello (by decide)
     1 (by decide),
   (session_step_isolation.2 afterHello 1 true afterDeliverB (by decide)).1,
   (session_step_isolation.2 afterHello 1 true afterDeliverB (by decide)).2
     0 (by decide)⟩

/-- C7: a complete line (appended data ending in the newline terminator)
is published as `(buffer ++ line, own identity)` — with the terminator
preserved — and the buffer is cleared for the next read; this holds for
the empty line `"\n"` like any other line (the code does not inspect the
contents).  Moreover a receive of another origin's message leaves the
line buffer untouched, so the next read indeed starts from the buffer the
last read left behind (empty). -/
theorem line_publish_clears_buffer :
    (∀ (addr : Addr) (wOk : Bool) (buf data : String),
      data.data.getLast? = some '\n' →
      sessionStep addr true wOk buf (.read (.ok data)) =
        .next "" [.publish (buf ++ data) addr]) ∧
    (∀ (addr o : Addr) (buf text : String),
      o ≠ addr →
      sessionStep addr true true buf (.recv (.msg text o)) =
        .next buf [.sockWrite text]) := by
  constructor
  · intro addr wOk buf data _h
    simp [sessionStep]
  · intro addr o buf text h
    have h' : addr ≠ o := Ne.symm h
    simp [sessionStep, h']

/-- Witness for C7 at the empty line `"\n"` (published like any other
line) and a concrete received message (buffer preserved). -/
theorem line_publish_clears_buffer_witness :
    "\n".data.getLast? = some '\n' ∧
    sessionStep 1 true true "" (.read (.ok "\n")) =
      .next "" [.publish ("" ++ "\n") 1] ∧
    (2 : Addr) ≠ 1 ∧
    sessionStep 1 true true "b" (.recv (.msg "x\n" 2)) =
      .next "b" [.sockWrite "x\n"] :=
  ⟨by decide,
   line_publish_clears_buffer.1 1 true "" "\n" (by decide),
   by decide,
   line_publish_clears_buffer.2 1 2 "b" "x\n" (by decide)⟩

/-- C8: deliveries to a handle are exactly a contiguous suffix of the
channel's publish log, in log order; hence for two messages of the same
origin at log positions `i1 < i2`, both within the handle's delivered
range, the first is delivered strictly before the second (at explicit
positions `i1 - start` and `i2 - start` of the delivered sequence):
FIFO per publisher, assuming no lag-drop. -/
theorem fifo_per_publisher :
    (∀ (ch : BChan) (r : Receiver),
      ch.drain r = ch.log.drop (max r.next ch.oldestRetained)) ∧
    (∀ (ch : BChan) (r : Receiver) (i1 i2 : Nat) (o : Addr)
        (t1 t2 : String),
      max r.next ch.oldestRetained ≤ i1 → i1 < i2 →
      i2 < ch.log.length →
      ch.log.getD i1 ("", 0) = (t1, o) →
      ch.log.getD i2 ("", 0) = (t2, o) →
      (ch.drain r).getD (i1 - max r.next ch.oldestRetained) ("", 0)
          = (t1, o) ∧
      (ch.drain r).getD (i2 - max r.next ch.oldestRetained) ("", 0)
          = (t2, o) ∧
      i1 - max r.next ch.oldestRetained
          < i2 - max r.next ch.oldestRetained ∧
      i2 - max r.next ch.oldestRetained < (ch.drain r).length) := by
  refine ⟨drain_eq_drop, ?_⟩
  intro ch r i1 i2 o t1 t2 hk h12 h2len hg1 hg2
  rw [drain_eq_drop]
  have hi1 : max r.next ch.oldestRetained
      + (i1 - max r.next ch.oldestRetained) = i1 := by omega
  have hi2 : max r.next ch.oldestRetained
      + (i2 - max r.next ch.oldestRetained) = i2 := by omega
  refine ⟨?_, ?_, by omega, ?_⟩
  · rw [List.getD_eq_getElem?_getD, List.getElem?_drop, hi1,
      ← List.getD_eq_getElem?_getD, hg1]
  · rw [List.getD_eq_getElem?_getD, List.getElem?_drop, hi2,
      ← List.getD_eq_getElem?_getD, hg2]
  · rw [List.length_drop]; omega

/-- Witness for C8 on a concrete channel: the two messages published by
origin 1 are delivered to a fresh subscriber in publish order. -/
theorem fifo_per_publisher_witness :
    fifoChan.drain ⟨0⟩
      = fifoChan.log.drop
          (max (Receiver.mk 0).next fifoChan.oldestRetained) ∧
    ((fifoChan.drain ⟨0⟩).getD
        (0 - max (Receiver.mk 0).next fifoChan.oldestRetained) ("", 0)
      = ("a\n", 1) ∧
     (fifoChan.drain ⟨0⟩).getD
        (1 - max (Receiver.mk 0).next fifoChan.oldestRetained) ("", 0)
      = ("b\n", 1) ∧
     0 - max (Receiver.mk 0).next fifoChan.oldestRetained
        < 1 - max (Receiver.mk 0).next fifoChan.oldestRetained ∧
     1 - max (Receiver.mk 0).next fifoChan.oldestRetained
        < (fifoChan.drain ⟨0⟩).length) :=
  ⟨fifo_per_publisher.1 fifoChan ⟨0⟩,
   fifo_per_publisher.2 fifoChan ⟨0⟩ 0 1 1 "a\n" "b\n" (by decide)
     (by decide) (by decide) (by decide) (by decide)⟩

/-- C9 counterexample: a `send` on the broadcast channel with zero
receivers present does not return success — tokio's
`broadcast::Sender::send` returns `Err(SendError(message))` when no
receiver exists, and nothing is enqueued. -/
theorem send_zero_receivers_cex :
    BChan.sendRes { cap := 10, log := [] } 0 ("x\n", 1)
      = .error ("x\n", 1) := rfl

/-- C9 amended: `send` returns an error exactly when zero receivers are
present (it never blocks and never panics by itself); with at least one
receiver it succeeds, appending the message to the log.  (In this
program every publish happens with at least one receiver — the
publisher's own — which is claim C10.) -/
theorem sendRes_spec :
    (∀ (ch : BChan) (m : Msg), ch.sendRes 0 m = .error m) ∧
    (∀ (ch : BChan) (n : Nat) (m : Msg), 0 < n →
      ch.sendRes n m = .ok (ch.send m)) := by
  constructor
  · intro ch m; rfl
  · intro ch n m h
    simp [BChan.sendRes, Nat.pos_iff_ne_zero.mp h]

/-- Witness for C9 with one receiver present. -/
theorem sendRes_spec_witness :
    (0 : Nat) < 1 ∧
    BChan.sendRes { cap := 10, log := [] } 1 ("x\n", 1)
      = .ok (BChan.send { cap := 10, log := [] } ("x\n", 1)) :=
  ⟨by decide,
   sendRes_spec.2 { cap := 10, log := [] } 1 ("x\n", 1) (by decide)⟩

/-- C10: `channel_send.send(...).unwrap()` never panics in this program:
whenever a live session performs a publish, the channel's receiver count
is positive — the publishing session itself holds the receiver it
subscribed before its task started — so the read step always takes the
successful-send branch, appending `(buffer ++ data, own identity)` to the
log and clearing the buffer. -/
theorem send_unwrap_never_panics :
    ∀ (sys : System) (i : Nat) (data : String) (s : Session),
      sys.sessions[i]? = some s → s.alive = true →
      0 < receiverCount sys ∧
      sys.readStep i data =
        some { chan := sys.chan.send (s.message ++ data, s.addr),
               sessions := sys.sessions.set i
                 { s with message := "" } } := by
  intro sys i data s hi halive
  have hmem : s ∈ sys.sessions := List.mem_iff_getElem?.mpr ⟨i, hi⟩
  have hf : s ∈ sys.sessions.filter (fun s => s.alive) :=
    List.mem_filter.mpr ⟨hmem, halive⟩
  have hpos : 0 < receiverCount sys :=
    List.length_pos.mpr (List.ne_nil_of_mem hf)
  refine ⟨hpos, ?_⟩
  unfold System.readStep
  rw [hi]
  rw [decide_eq_true hpos]
  simp [halive, sessionStep, applyEffects]

/-- Witness for C10 on a concrete two-session system. -/
theorem send_unwrap_never_panics_witness :
    0 < receiverCount twoSessions ∧
    twoSessions.readStep 0 "hello\n" =
      some { chan := twoSessions.chan.send ("" ++ "hello\n", 1),
             sessions := twoSessions.sessions.set 0
               { addr := 1, rnext := 0, message := "", alive := true } } :=
  send_unwrap_never_panics twoSessions 0 "hello\n"
    { addr := 1, rnext := 0, message := "", alive := true }
    (by decide) (by decide)

end TcpChat
